/-
Verification of the medical-research-assistant backend.

This file shallowly embeds the claim-relevant Python code of the repository
(source adapters, aggregation orchestrator, persistence upsert, HTTP handler
for date lookup, daily update cycles, and the text-formatting helpers) as
executable Lean definitions, and proves or refutes the specification claims
about them.

Conventions of the embedding:
* Python exceptions are modelled with the `PyExn` inductive and `Except`;
  a `try/except SomeError` block becomes a `match` on the `Except` value
  that converts exactly the caught constructors back into normal results.
* Python `None`-able strings are `Option String`; Python truthiness of a
  string option (`if result:`) is `optTruthy` (None and "" are falsy).
* Python f-string interpolation of a possibly-`None` value renders `none`
  as the literal text "None" (`pyShowOpt`), as CPython does.
* Monetary amounts are modelled as rationals; Python's fixed-point float
  formatting (round-half-even to a given number of decimals) is modelled
  by `toFixed` on ℚ.
* `str.lower`/`str.upper` are modelled as ASCII case maps, which agree with
  CPython on all strings appearing in this program.
-/
import Mathlib

set_option linter.unusedVariables false

/-- Python exception values relevant to this program. -/
inductive PyExn where
  | valueError : PyExn
  | typeError : PyExn
  | keyError : String → PyExn
  | requestException : PyExn
  | httpException : Nat → String → PyExn
  deriving Repr, DecidableEq

/-- Python truthiness of an optional string: `None` and `""` are falsy. -/
def optTruthy : Option String → Bool
  | none => false
  | some s => !(s == "")

/-- f-string rendering of an optional string: `None` prints as "None". -/
def pyShowOpt : Option String → String
  | none => "None"
  | some s => s

/-- f-string rendering of an optional natural number. -/
def pyShowOptNat : Option Nat → String
  | none => "None"
  | some n => toString n

/-- Python `dict[key]` access on a schema field: missing key raises KeyError. -/
def pySubscript {α : Type} (key : String) : Option α → Except PyExn α
  | none => .error (.keyError key)
  | some a => .ok a

/-- ASCII lower-casing, modelling `str.lower` on the ASCII strings used here. -/
def pyLower (s : String) : String := String.mk (s.toList.map Char.toLower)

/-- ASCII upper-casing, modelling `str.upper`. -/
def pyUpper (s : String) : String := String.mk (s.toList.map Char.toUpper)

/-- `str.capitalize`: first character upper-cased, the rest lower-cased. -/
def pyCapitalize (s : String) : String :=
  match s.toList with
  | [] => ""
  | c :: cs => String.mk (c.toUpper :: cs.map Char.toLower)

/-- Substring occurrence test on character lists (Python `needle in haystack`). -/
def listContainsSub (needle : List Char) : List Char → Bool
  | [] => needle.isPrefixOf []
  | c :: cs => needle.isPrefixOf (c :: cs) || listContainsSub needle cs

/-- Substring occurrence test on strings, modelling Python `in`. -/
def strContainsSub (haystack needle : String) : Bool :=
  listContainsSub needle.toList haystack.toList

/-- Round the fraction `num / den` (with `den > 0`) to the nearest integer,
ties to even — the rounding CPython fixed-point formatting applies to the
decimal value.  Implemented on raw integers so the kernel can evaluate it. -/
def roundHalfEvenFrac (num den : ℤ) : ℤ :=
  let f := num.fdiv den
  let r := num - f * den
  if 2 * r < den then f
  else if 2 * r > den then f + 1
  else if f % 2 = 0 then f else f + 1

/-- Python `f"{x:.nf}"` fixed-point formatting of the rational `num / den`:
round `(num / den) * 10^n` half-to-even, then place the decimal point. -/
def toFixedFrac (num : ℤ) (den : Nat) (n : Nat) : String :=
  let scaled : ℤ := roundHalfEvenFrac (num * (10 : ℤ) ^ n) (den : ℤ)
  let sign := if scaled < 0 then "-" else ""
  let raw := Nat.toDigits 10 scaled.natAbs
  let digits := List.replicate (n + 1 - raw.length) '0' ++ raw
  let intPart := digits.take (digits.length - n)
  let fracPart := digits.drop (digits.length - n)
  if n = 0 then sign ++ String.mk intPart
  else sign ++ String.mk intPart ++ "." ++ String.mk fracPart

/-- `f"{q:.nf}"` on a rational value. -/
def toFixed (q : ℚ) (n : Nat) : String := toFixedFrac q.num q.den n

/-!
## DataFormatter.format_currency (src/backend/src/utils/formatters.py 6-14)
and NIHFetcher.format_currency (src/backend/src/data_fetchers/nih_fetcher.py 10-17)
The two Python functions are textually identical; both are embedded.
-/

/-- `DataFormatter.format_currency`.  The Python division `amount / 1_000_000`
is embedded as the unnormalized fraction (num, den·1_000_000), which denotes
the same rational value; `toFixedFrac` rounds by value, so this is exact. -/
def format_currency (amount : ℚ) : String :=
  if amount ≥ 1000000 then "$" ++ toFixedFrac amount.num (amount.den * 1000000) 1 ++ "M"
  else if amount ≥ 1000 then "$" ++ toFixedFrac amount.num (amount.den * 1000) 1 ++ "K"
  else "$" ++ toFixedFrac amount.num amount.den 2

/-- `NIHFetcher.format_currency`, textually identical to the
`DataFormatter` copy in the source. -/
def nih_format_currency (amount : ℚ) : String :=
  if amount ≥ 1000000 then "$" ++ toFixedFrac amount.num (amount.den * 1000000) 1 ++ "M"
  else if amount ≥ 1000 then "$" ++ toFixedFrac amount.num (amount.den * 1000) 1 ++ "K"
  else "$" ++ toFixedFrac amount.num amount.den 2

/-- The currency formatting rule exactly as the specification claim words it:
amount/1e6 to one decimal with suffix "M" when amount ≥ 1,000,000; amount/1e3
to one decimal with suffix "K" when 1,000 ≤ amount < 1,000,000; otherwise the
amount to two decimal places, all prefixed with "$". -/
def format_currency_claim (amount : ℚ) : String :=
  if amount ≥ 1000000 then "$" ++ toFixedFrac amount.num (amount.den * 1000000) 1 ++ "M"
  else if 1000 ≤ amount ∧ amount < 1000000 then
    "$" ++ toFixedFrac amount.num (amount.den * 1000) 1 ++ "K"
  else "$" ++ toFixedFrac amount.num amount.den 2

/-!
## DataFormatter.format_date (src/backend/src/utils/formatters.py 24-32)

`datetime.strptime` / `strftime` are modelled for the directives this
program uses (%Y, %m, %d, %B plus literal characters); any other directive
makes the model `strptime` fail with ValueError, as CPython's does.
A parsed date is validated (month 1-12, day within the month, year ≥ 1) the
way constructing a `datetime` validates it.  `strptime` on a non-string
input raises TypeError.  All of `strptime`'s failures are ValueError or
TypeError by construction, which is what the code's `except` clause relies on.
-/

/-- A Python value that is either `None` or a string. -/
inductive PyVal where
  | pyNone : PyVal
  | pyStr : String → PyVal
  deriving Repr, DecidableEq

/-- The date triple `datetime.strptime` produces (time parts unused here). -/
structure PyDate where
  year : Nat
  month : Nat
  day : Nat
  deriving Repr, DecidableEq

def monthNames : List String :=
  ["January", "February", "March", "April", "May", "June",
   "July", "August", "September", "October", "November", "December"]

def digitVal (c : Char) : Option Nat :=
  if c.isDigit then some (c.toNat - '0'.toNat) else none

/-- Read exactly `k` digits, returning the value and the rest of the input. -/
def readFixedDigits : Nat → Nat → List Char → Option (Nat × List Char)
  | 0, acc, cs => some (acc, cs)
  | _ + 1, _, [] => none
  | k + 1, acc, c :: cs =>
    match digitVal c with
    | some v => readFixedDigits k (acc * 10 + v) cs
    | none => none

/-- Read one or two digits greedily (the `\d\x7b1,2\x7d` pattern strptime
compiles for %m and %d). -/
def readUpTo2Digits : List Char → Option (Nat × List Char)
  | [] => none
  | [c] =>
    match digitVal c with
    | some v => some (v, [])
    | none => none
  | c :: c2 :: rest =>
    match digitVal c with
    | none => none
    | some v =>
      match digitVal c2 with
      | some v2 => some (v * 10 + v2, rest)
      | none => some (v, c2 :: rest)

/-- Match a full month name case-insensitively (the %B directive). -/
def tryMonths : List (Nat × String) → List Char → Option (Nat × List Char)
  | [], _ => none
  | (i, name) :: rest, cs =>
    let ncs := name.toList.map Char.toLower
    if ncs.isPrefixOf (cs.map Char.toLower) then some (i, cs.drop ncs.length)
    else tryMonths rest cs

def monthsEnum : List (Nat × String) :=
  (List.range monthNames.length).map fun i => (i + 1, monthNames.getD i "")

/-- Accumulator for strptime (defaults: year 1900, January 1st). -/
structure DateAcc where
  y : Nat
  m : Nat
  d : Nat

/-- The strptime matching loop: walk the format, consuming input.
`none` is any ValueError (bad directive, mismatch, unconverted data). -/
def runStrptime : List Char → List Char → DateAcc → Option DateAcc
  | [], [], acc => some acc
  | [], _ :: _, _ => none
  | '%' :: [], _, _ => none
  | '%' :: dir :: fmt, cs, acc =>
    if dir = 'Y' then
      match readFixedDigits 4 0 cs with
      | some (v, cs2) => runStrptime fmt cs2 { acc with y := v }
      | none => none
    else if dir = 'm' then
      match readUpTo2Digits cs with
      | some (v, cs2) => if 1 ≤ v ∧ v ≤ 12 then runStrptime fmt cs2 { acc with m := v } else none
      | none => none
    else if dir = 'd' then
      match readUpTo2Digits cs with
      | some (v, cs2) => if 1 ≤ v ∧ v ≤ 31 then runStrptime fmt cs2 { acc with d := v } else none
      | none => none
    else if dir = 'B' then
      match tryMonths monthsEnum cs with
      | some (v, cs2) => runStrptime fmt cs2 { acc with m := v }
      | none => none
    else if dir = '%' then
      match cs with
      | '%' :: cs2 => runStrptime fmt cs2 acc
      | _ => none
    else none
  | c :: fmt, c2 :: cs, acc => if c = c2 then runStrptime fmt cs acc else none
  | _ :: _, [], _ => none

def isLeapYear (y : Nat) : Bool :=
  (y % 4 == 0 && y % 100 != 0) || y % 400 == 0

def daysInMonth (y m : Nat) : Nat :=
  if m = 2 then (if isLeapYear y then 29 else 28)
  else if m = 4 ∨ m = 6 ∨ m = 9 ∨ m = 11 then 30
  else 31

/-- strptime on a string: match, then validate as `datetime` construction does. -/
def strptimeStr (s fmt : String) : Option PyDate :=
  match runStrptime fmt.toList s.toList ⟨1900, 1, 1⟩ with
  | none => none
  | some acc =>
    if 1 ≤ acc.y ∧ 1 ≤ acc.m ∧ acc.m ≤ 12 ∧ 1 ≤ acc.d ∧ acc.d ≤ daysInMonth acc.y acc.m
    then some ⟨acc.y, acc.m, acc.d⟩ else none

/-- `datetime.strptime`: TypeError on a non-string, ValueError on parse failure. -/
def strptime (v : PyVal) (fmt : String) : Except PyExn PyDate :=
  match v with
  | .pyNone => .error .typeError
  | .pyStr s =>
    match strptimeStr s fmt with
    | some d => .ok d
    | none => .error .valueError

/-- Zero-pad a natural number to at least `w` digits. -/
def padNum (n w : Nat) : String :=
  let raw := Nat.toDigits 10 n
  String.mk (List.replicate (w - raw.length) '0' ++ raw)

/-- `datetime.strftime` for the directives used here; unknown directives pass
through literally. -/
def runStrftime : List Char → PyDate → List Char
  | [], _ => []
  | '%' :: 'Y' :: fmt, d => (padNum d.year 4).toList ++ runStrftime fmt d
  | '%' :: 'm' :: fmt, d => (padNum d.month 2).toList ++ runStrftime fmt d
  | '%' :: 'd' :: fmt, d => (padNum d.day 2).toList ++ runStrftime fmt d
  | '%' :: 'B' :: fmt, d => ((monthNames.getD (d.month - 1) "")).toList ++ runStrftime fmt d
  | '%' :: '%' :: fmt, d => '%' :: runStrftime fmt d
  | c :: fmt, d => c :: runStrftime fmt d

def strftime (d : PyDate) (fmt : String) : String :=
  String.mk (runStrftime fmt.toList d)

/-- The body of `DataFormatter.format_date` before the `except` clause:
parse with the input format, render with the output format. -/
def format_date_body (date_str : PyVal) (input_format output_format : String) :
    Except PyExn PyVal :=
  match strptime date_str input_format with
  | .ok date_obj => .ok (.pyStr (strftime date_obj output_format))
  | .error e => .error e

/-- `DataFormatter.format_date`: `except (ValueError, TypeError)` returns the
original input unchanged; any other exception would propagate. -/
def format_date (date_str : PyVal) (input_format output_format : String) :
    Except PyExn PyVal :=
  match format_date_body date_str input_format output_format with
  | .ok v => .ok v
  | .error .valueError => .ok date_str
  | .error .typeError => .ok date_str
  | .error e => .error e

/-!
## MedRxivFetcher (src/backend/src/data_fetchers/medrxiv_fetcher.py)

A raw paper is the JSON object of the upstream `collection` array; each
field is `Option` because `paper.get(key)` yields `None` for a missing key.
-/

structure MedrxivPaper where
  title : Option String
  doi : Option String
  authors : Option String
  date : Option String
  category : Option String
  abstract : Option String
  author_corresponding_institution : Option String
  author_corresponding : Option String
  deriving Repr, DecidableEq

def rare_disease_keywords : List String :=
  ["rare disease", "rare disorder", "orphan disease", "rare genetic",
   "rare mutation", "rare syndrome", "rare condition",
   "ultra-rare", "rare inherited", "rare metabolic"]

/-- The `f"{title} {abstract}"` text the filter searches
(`paper.get(key, '')` defaults a missing field to the empty string). -/
def medrxiv_search_text (paper : MedrxivPaper) : String :=
  (paper.title.getD "") ++ " " ++ (paper.abstract.getD "")

/-- `MedRxivFetcher.is_rare_disease_paper` (lines 24-33). -/
def is_rare_disease_paper (paper : MedrxivPaper) : Bool :=
  let text_to_search := pyLower (medrxiv_search_text paper)
  rare_disease_keywords.any fun keyword => strContainsSub text_to_search (pyLower keyword)

/-- The normalized record `parse_medrxiv_papers` builds for a retained paper. -/
structure MedrxivPaperData where
  title : Option String
  doi : Option String
  authors : Option String
  date : Option String
  category : Option String
  abstract : Option String
  institution : Option String
  corresponding_author : Option String
  deriving Repr, DecidableEq

def extract_medrxiv_paper (p : MedrxivPaper) : MedrxivPaperData :=
  { title := p.title, doi := p.doi, authors := p.authors, date := p.date,
    category := p.category, abstract := p.abstract,
    institution := p.author_corresponding_institution,
    corresponding_author := p.author_corresponding }

/-- The `response.json()` value: `truthy` is the Python truthiness of the
object (an empty dict is falsy); `collection` is `none` when the key is
missing. -/
structure MedrxivResp where
  truthy : Bool
  collection : Option (List MedrxivPaper)

/-- The filtering loop of `parse_medrxiv_papers` (lines 42-54). -/
def parse_medrxiv_loop : List MedrxivPaper → List MedrxivPaperData
  | [] => []
  | p :: ps =>
    if is_rare_disease_paper p then extract_medrxiv_paper p :: parse_medrxiv_loop ps
    else parse_medrxiv_loop ps

/-- `MedRxivFetcher.parse_medrxiv_papers` (lines 35-56). -/
def parse_medrxiv_papers (response_data : Option MedrxivResp) : List MedrxivPaperData :=
  match response_data with
  | none => []
  | some r =>
    if !r.truthy || r.collection.isNone then []
    else parse_medrxiv_loop (r.collection.getD [])

/-!
## Text wrapping and the abstract-formatting blocks (claim C8)
-/

/-- Python `str.split()` — split on whitespace runs, dropping empty pieces. -/
def splitWsGo : List Char → List Char → List String
  | [], [] => []
  | [], w => [String.mk w.reverse]
  | c :: cs, w =>
    if c.isWhitespace then
      if w.isEmpty then splitWsGo cs [] else String.mk w.reverse :: splitWsGo cs []
    else splitWsGo cs (c :: w)

def pySplitWs (s : String) : List String := splitWsGo s.toList []

/-- Python slicing `s[:n]` (character based). -/
def pyTake (s : String) (n : Nat) : String := String.mk (s.toList.take n)

/-- The hand-rolled word-wrap loop of `format_paper_summary`
(medrxiv_fetcher.py lines 79-96), width 80, transcribed exactly,
including its `line_length` accounting. -/
def medrxivWrapLoop : List String → List String → Nat → List String
  | [], current_line, _ =>
    if current_line.isEmpty then [] else [String.intercalate " " current_line]
  | word :: words, current_line, line_length =>
    if line_length + word.length + 1 ≤ 80 then
      medrxivWrapLoop words (current_line ++ [word]) (line_length + word.length + 1)
    else
      String.intercalate " " current_line ::
        medrxivWrapLoop words [word] word.length

def medrxiv_wrap80 (abstract : String) : List String :=
  medrxivWrapLoop (pySplitWs abstract) [] 0

/-- The abstract block of the medrxiv paper formatter (lines 76-96):
header plus the word-wrapped FULL abstract; no truncation is applied. -/
def medrxiv_abstract_lines (abstract : Option String) : List String :=
  if optTruthy abstract then "\nAbstract:" :: medrxiv_wrap80 (abstract.getD "") else []

/-- Greedy line filling after whitespace normalization, the core of
`textwrap.fill` (long words are placed on their own line; `textwrap`'s
breaking of words longer than a whole line is not modelled — no string in
this program's claims reaches that case). -/
def wrapGreedy (width indLen : Nat) : List String → List String → List String
  | [], current => if current.isEmpty then [] else [String.intercalate " " current]
  | w :: ws, current =>
    if current.isEmpty then wrapGreedy width indLen ws [w]
    else if indLen + (String.intercalate " " current).length + 1 + w.length ≤ width then
      wrapGreedy width indLen ws (current ++ [w])
    else String.intercalate " " current :: wrapGreedy width indLen ws [w]

/-- Model of `textwrap.fill(text, width, initial_indent, subsequent_indent)`
(this program always passes equal indents). -/
def wrap_fill (width : Nat) (initialIndent subsequentIndent : String) (text : String) : String :=
  let lines := wrapGreedy width subsequentIndent.length (pySplitWs text) []
  let indented :=
    match lines with
    | [] => []
    | l :: ls => (initialIndent ++ l) :: ls.map (subsequentIndent ++ ·)
  String.intercalate "\n" indented

/-- The abstract-preview expression of `format_nih_summary`
(nih_fetcher.py line 102): truncate past 200 characters and append "...". -/
def nih_abstract_preview (abstract : String) : String :=
  if abstract.length > 200 then pyTake abstract 200 ++ "..." else abstract

/-- The abstract block of the NIH project formatter (lines 101-107):
guarded on truthiness, previewed, wrapped at width 65 with 2-space indents. -/
def nih_abstract_block (abstract : String) : List String :=
  if abstract ≠ "" then
    ["\nAbstract Preview:", wrap_fill 65 "  " "  " (nih_abstract_preview abstract)]
  else []

/-!
## PubMedFetcher.format_disease_summary (pubmed_fetcher.py 111-132)

`PubmedArticle` is the dict `parse_pubmed_articles` builds: a doubly-
optional field distinguishes "key absent from the dict" (outer `none`)
from "key present with value None" (inner `none`), because
`article.get(key, default)` falls back to the default only in the former
case while an f-string renders the latter as the text "None".
-/

structure PubmedArticle where
  pmid : Option String
  title : Option String
  journal : Option (Option String)
  publication_date : Option (Option String)
  abstract : Option (Option String)
  keywords : Option (List String)
  authors : Option (List String)
  doi : Option (Option String)
  deriving Repr, DecidableEq

/-- `article.get(key, default)` on a doubly-optional field, rendered. -/
def pyGetRender (v : Option (Option String)) (dflt : String) : String :=
  match v with
  | none => dflt
  | some inner => pyShowOpt inner

/-- The abstract block of `format_disease_summary` (lines 125-127): the
abstract is appended unmodified — no truncation, no wrapping. -/
def pubmed_abstract_lines (abstract : Option (Option String)) : List String :=
  match abstract with
  | some (some s) => if s ≠ "" then ["\nAbstract:", s] else []
  | _ => []

def pubmed_article_lines (article : PubmedArticle) : List String :=
  ["\n=== Article Summary ===",
   "Title: " ++ pyShowOpt article.title,
   "Authors: " ++ String.intercalate ", " (article.authors.getD ["N/A"]),
   "Journal: " ++ pyGetRender article.journal "N/A",
   "Publication Date: " ++ pyGetRender article.publication_date "N/A"]
  ++ (match article.keywords with
      | some (k :: ks) => ["Keywords: " ++ String.intercalate ", " (k :: ks)]
      | _ => [])
  ++ pubmed_abstract_lines article.abstract
  ++ ["\nDOI: " ++ pyGetRender article.doi "N/A", "\n"]

def format_disease_summary (articles : List PubmedArticle) : String :=
  String.intercalate "\n" (articles.flatMap pubmed_article_lines)

/-!
## ClinicalTrialsFetcher (clinicaltrials_fetcher.py)

The upstream JSON is modelled by its schema: every key an adapter reads is
an `Option` field (missing key ⇒ `none`).  JSON null values for keys the
schema types as objects/lists are identified with the missing-key case.
-/

structure CTIdentificationModule where
  nctId : Option String
  briefTitle : Option String
  deriving Repr, DecidableEq

structure CTDateStruct where
  date : Option String
  deriving Repr, DecidableEq

structure CTStatusModule where
  overallStatus : Option String
  startDateStruct : Option CTDateStruct
  deriving Repr, DecidableEq

structure CTLeadSponsor where
  name : Option String
  deriving Repr, DecidableEq

structure CTSponsorModule where
  leadSponsor : Option CTLeadSponsor
  deriving Repr, DecidableEq

structure CTDescriptionModule where
  briefSummary : Option String
  deriving Repr, DecidableEq

structure CTConditionsModule where
  conditions : Option (List String)
  keywords : Option (List String)
  deriving Repr, DecidableEq

structure CTEnrollmentInfo where
  count : Option Nat
  deriving Repr, DecidableEq

structure CTDesignModule where
  studyType : Option String
  phases : Option (List String)
  enrollmentInfo : Option CTEnrollmentInfo
  deriving Repr, DecidableEq

/-- One entry of the `interventions` array (keys `type` and `name`). -/
structure CTIntervention where
  interventionType : Option String
  name : Option String
  deriving Repr, DecidableEq

structure CTArmsModule where
  interventions : Option (List CTIntervention)
  deriving Repr, DecidableEq

structure CTEligibilityModule where
  eligibilityCriteria : Option String
  sex : Option String
  minimumAge : Option String
  maximumAge : Option String
  deriving Repr, DecidableEq

structure CTProtocol where
  identificationModule : Option CTIdentificationModule
  statusModule : Option CTStatusModule
  sponsorCollaboratorsModule : Option CTSponsorModule
  descriptionModule : Option CTDescriptionModule
  conditionsModule : Option CTConditionsModule
  designModule : Option CTDesignModule
  armsInterventionsModule : Option CTArmsModule
  eligibilityModule : Option CTEligibilityModule
  deriving Repr, DecidableEq

structure CTStudy where
  protocolSection : Option CTProtocol
  deriving Repr, DecidableEq

def emptyCTProtocol : CTProtocol :=
  ⟨none, none, none, none, none, none, none, none⟩

/-- The trial dict `parse_clinical_trials` builds.  Every key is always
present; values keep the `None`s the `.get` chains may produce. -/
structure CTTrial where
  nct_id : Option String
  title : Option String
  status : Option String
  start_date : Option String
  sponsor : Option String
  brief_summary : Option String
  conditions : Option (List String)
  keywords : Option (List String)
  study_type : Option String
  phases : Option (List String)
  enrollment : Option Nat
  interventions : List (Option String × Option String)
  eligibility_criteria : Option String
  eligibility_gender : Option String
  eligibility_min_age : Option String
  eligibility_max_age : Option String
  deriving Repr, DecidableEq

/-- The per-study extraction of `parse_clinical_trials` (lines 36-88). -/
def parse_ct_study (study : CTStudy) : CTTrial :=
  let protocol := study.protocolSection.getD emptyCTProtocol
  let identification := protocol.identificationModule.getD ⟨none, none⟩
  let status := protocol.statusModule.getD ⟨none, none⟩
  let sponsor := protocol.sponsorCollaboratorsModule.getD ⟨none⟩
  let description := protocol.descriptionModule.getD ⟨none⟩
  let conditions := protocol.conditionsModule.getD ⟨none, none⟩
  let design := protocol.designModule.getD ⟨none, none, none⟩
  let interventions := (protocol.armsInterventionsModule.getD ⟨none⟩).interventions.getD []
  let eligibility := protocol.eligibilityModule.getD ⟨none, none, none, none⟩
  { nct_id := identification.nctId
    title := identification.briefTitle
    status := status.overallStatus
    start_date := (status.startDateStruct.getD ⟨none⟩).date
    sponsor := (sponsor.leadSponsor.getD ⟨none⟩).name
    brief_summary := description.briefSummary
    conditions := conditions.conditions
    keywords := conditions.keywords
    study_type := design.studyType
    phases := design.phases
    enrollment := (design.enrollmentInfo.getD ⟨none⟩).count
    interventions := interventions.map fun i => (i.interventionType, i.name)
    eligibility_criteria := eligibility.eligibilityCriteria
    eligibility_gender := eligibility.sex
    eligibility_min_age := eligibility.minimumAge
    eligibility_max_age := eligibility.maximumAge }

/-- The `response.json()` object: `truthy` is its Python truthiness
(an empty dict is falsy); `studies` is `none` when the key is missing. -/
structure CTResp where
  truthy : Bool
  studies : Option (List CTStudy)

/-- `parse_clinical_trials` (lines 29-90).  The guard returns `[]` before the
`response_data['studies']` subscript can fail, which the theorem makes
explicit by keeping the subscript in the `Except` monad. -/
def parse_clinical_trials (response_data : Option CTResp) : Except PyExn (List CTTrial) :=
  match response_data with
  | none => .ok []
  | some r =>
    if !r.truthy || r.studies.isNone then .ok []
    else
      match pySubscript "studies" r.studies with
      | .ok studies => .ok (studies.map parse_ct_study)
      | .error e => .error e

/-- Truthiness of an optional list (`if trial.get('conditions'):`). -/
def listTruthy {α : Type} : Option (List α) → Bool
  | none => false
  | some l => !l.isEmpty

/-- The per-trial lines of `format_trial_summary` (lines 96-129). -/
def ct_trial_lines (trial : CTTrial) : List String :=
  ["\n=== Clinical Trial Summary ===",
   "NCT ID: " ++ pyShowOpt trial.nct_id,
   "Title: " ++ pyShowOpt trial.title,
   "Status: " ++ pyShowOpt trial.status,
   "Start Date: " ++ pyShowOpt trial.start_date,
   "Sponsor: " ++ pyShowOpt trial.sponsor]
  ++ (if listTruthy trial.conditions then
        ["Conditions: " ++ String.intercalate ", " (trial.conditions.getD [])] else [])
  ++ (if listTruthy trial.keywords then
        ["Keywords: " ++ String.intercalate ", " (trial.keywords.getD [])] else [])
  ++ (if listTruthy trial.phases then
        ["Phase: " ++ String.intercalate ", " (trial.phases.getD [])] else [])
  ++ ["Enrollment: " ++ pyShowOptNat trial.enrollment ++ " participants"]
  ++ (if !trial.interventions.isEmpty then
        "\nInterventions:" ::
          trial.interventions.map (fun i => "- " ++ pyShowOpt i.1 ++ ": " ++ pyShowOpt i.2)
      else [])
  ++ (if optTruthy trial.brief_summary then
        ["\nBrief Summary:", trial.brief_summary.getD ""] else [])
  ++ ["\nEligibility:",
      "Gender: " ++ pyShowOpt trial.eligibility_gender,
      "Age: " ++ pyShowOpt trial.eligibility_min_age ++ " - " ++
        pyShowOpt trial.eligibility_max_age,
      "\n"]

def format_trial_summary (trials : List CTTrial) : String :=
  String.intercalate "\n" (trials.flatMap ct_trial_lines)

/-- `ClinicalTrialsFetcher.fetch_and_summarize_trials` (lines 133-139).
`response_data = none` is the transport-error path (`fetch_clinical_trials`
catches `RequestException` and returns `None`). -/
def fetch_and_summarize_trials (response_data : Option CTResp) : Except PyExn String :=
  match response_data with
  | some r =>
    if r.truthy then
      match parse_clinical_trials (some r) with
      | .ok trials => .ok (format_trial_summary trials)
      | .error e => .error e
    else .ok "No results found or error occurred"
  | none => .ok "No results found or error occurred"

/-!
## PubMedFetcher fetch pipeline (pubmed_fetcher.py 12-54, 134-140)

The two network calls are modelled by their outcomes (`Except Unit …`,
error = a raised `requests.RequestException`).  The XML parse/format stage
(`parse_pubmed_articles ∘ format_disease_summary` over `ET.fromstring`)
is a parameter `parseAndFormat`; the fetch control flow — which `except`
clause catches what, the dict subscripts, the truthiness branches and the
sentinel return — is embedded exactly.
-/

structure PMESearchResult where
  idlist : Option (List String)
  deriving Repr, DecidableEq

structure PMSearchData where
  esearchresult : Option PMESearchResult
  deriving Repr, DecidableEq

/-- Values `fetch_pubmed_data` can return: `None`, the empty dict `\x7b\x7d`
(the `if not pmids` branch), or the response text. -/
inductive PMVal where
  | pyNone : PMVal
  | emptyDict : PMVal
  | text : String → PMVal
  deriving Repr, DecidableEq

/-- `PubMedFetcher.fetch_pubmed_data` (lines 12-54).  Only
`requests.RequestException` is caught; the `search_data['esearchresult']`
and `[...]['idlist']` subscripts raise `KeyError` past the function. -/
def fetch_pubmed_data (searchResp : Except Unit PMSearchData)
    (efetchResp : Except Unit String) : Except PyExn PMVal :=
  match searchResp with
  | .error _ => .ok .pyNone
  | .ok search_data =>
    match pySubscript "esearchresult" search_data.esearchresult with
    | .error e => .error e
    | .ok esr =>
      match pySubscript "idlist" esr.idlist with
      | .error e => .error e
      | .ok pmids =>
        if pmids.isEmpty then .ok .emptyDict
        else
          match efetchResp with
          | .error _ => .ok .pyNone
          | .ok text => .ok (.text text)

/-- Python truthiness of a `fetch_pubmed_data` result: `None`, the empty
dict and the empty string are falsy. -/
def pmvalTruthy : PMVal → Bool
  | .text s => !(s == "")
  | _ => false

/-- `PubMedFetcher.fetch_and_summarize` (lines 134-140). -/
def pubmed_fetch_and_summarize (parseAndFormat : String → Except PyExn String)
    (searchResp : Except Unit PMSearchData) (efetchResp : Except Unit String) :
    Except PyExn String :=
  match fetch_pubmed_data searchResp efetchResp with
  | .error e => .error e
  | .ok (.text s) =>
    if s ≠ "" then parseAndFormat s else .ok "No results found or error occurred"
  | .ok _ => .ok "No results found or error occurred"

/-!
## MedicalResearchAssistant orchestration
(medical_research_assistant.py 52-80, 182-256)

A tool invocation `tool.func(query)` is modelled by its outcome
`Except PyExn (Option String)` (raise / return `None`-or-string).  The
LLM `summarize_response` is a pure function parameter; `db.connect` and
`store_query_result` are modelled as succeeding — the claims about these
entry points quantify over adapter failures only, and §7 of the spec has
synthesis and persistence failures on separate paths.
-/

/-- The registration order of the tools dict (`_setup_tools`, lines 54-80). -/
def tool_names : List String :=
  ["pubmed", "clinical_trials", "research_papers", "cdc_data", "nih"]

def insufficient_sentinel : String :=
  "I couldn't find enough relevant information to answer your query."

/-- The fan-out loop shared by `fetch_analysis` and `answer_specific_query`:
invoke each tool, catch any exception (`continue`), keep truthy results
with their tool name, in iteration order. -/
def collect_results : List (String × Except PyExn (Option String)) → List (String × String)
  | [] => []
  | (tool_name, outcome) :: rest =>
    match outcome with
    | .ok result =>
      if optTruthy result then (tool_name, result.getD "") :: collect_results rest
      else collect_results rest
    | .error _ => collect_results rest

/-- The canned query strings of `fetch_analysis` (lines 184-190). -/
def analysis_query (analysis_type : String) : String :=
  if analysis_type = "recent_trends" then "current trends in rare disease research"
  else if analysis_type = "clinical" then "latest clinical trials and treatments for rare diseases"
  else if analysis_type = "research" then "current medical research on rare diseases"
  else ""

/-- `MedicalResearchAssistant._format_overview` (lines 249-256): each source
contributes a `=== NAME ===` header and its content; everything is joined
with blank lines.  The `title` argument is accepted but never used by the
source either. -/
def format_overview (title : String) (analysis : List (String × String)) : String :=
  String.intercalate "\n\n"
    (analysis.flatMap fun sc => ["=== " ++ pyUpper sc.1 ++ " ===", sc.2])

/-- `MedicalResearchAssistant.fetch_analysis` (lines 182-209).  The second
component records every `(raw_response, query)` argument pair passed to
`summarize_response`, so invocation counts are provable. -/
def fetch_analysis (summarize : String → String → String)
    (tools : List (String × Except PyExn (Option String))) (analysis_type : String) :
    Option String × List (String × String) :=
  let query := analysis_query analysis_type
  let analysis_results := collect_results tools
  if analysis_results.isEmpty then (none, [])
  else
    let raw_response :=
      format_overview (pyCapitalize analysis_type ++ " Analysis") analysis_results
    (some (summarize raw_response query), [(raw_response, query)])

/-- `MedicalResearchAssistant.answer_specific_query` (lines 211-247). -/
def answer_specific_query (summarize : String → String → String)
    (tools : List (String × Except PyExn (Option String))) (query : String) :
    Except PyExn String :=
  let analysis_results := collect_results tools
  if analysis_results.isEmpty then .ok insufficient_sentinel
  else .ok (summarize (format_overview "Analysis Results" analysis_results) query)

/-- The proposition "this adapter outcome is a non-empty digest". -/
def produced_digest (outcome : Except PyExn (Option String)) : Prop :=
  ∃ s, outcome = .ok (some s) ∧ s ≠ ""

/-!
## MedicalResearchDB.store_daily_analysis (database_handler.py 35-72)

The `daily_analysis` collection is a list of records in insertion order;
`update_one(filter, set, upsert=True)` modifies the first matching record
or appends.  Metadata is an opaque string; `today` is a parameter (the
date string `datetime.now()` yields at call time).
-/

structure AnalysisRecord where
  date : String
  rtype : String
  summary : Option String
  metadata : String
  timestamp : Nat
  deriving Repr, DecidableEq

def keyMatch (date rtype : String) (r : AnalysisRecord) : Bool :=
  r.date == date && r.rtype == rtype

/-- Replace the first record satisfying `p` by `doc`. -/
def replaceFirst (p : AnalysisRecord → Bool) (doc : AnalysisRecord) :
    List AnalysisRecord → List AnalysisRecord
  | [] => []
  | r :: rs => if p r then doc :: rs else r :: replaceFirst p doc rs

/-- MongoDB `update_one` with `$set` of the full document and `upsert=True`. -/
def update_one_upsert (db : List AnalysisRecord) (date rtype : String)
    (doc : AnalysisRecord) : List AnalysisRecord :=
  if db.any (keyMatch date rtype) then replaceFirst (keyMatch date rtype) doc db
  else db ++ [doc]

/-- `MedicalResearchDB.store_daily_analysis`. -/
def store_daily_analysis (db : List AnalysisRecord) (today analysis_type : String)
    (summary_text : Option String) (metadata : String) (now : Nat) : List AnalysisRecord :=
  let document : AnalysisRecord :=
    { date := today, rtype := analysis_type, summary := summary_text,
      metadata := metadata, timestamp := now }
  update_one_upsert db today analysis_type document

/-- Number of stored records for a (date, type) key. -/
def countKey (db : List AnalysisRecord) (date rtype : String) : Nat :=
  (db.filter (keyMatch date rtype)).length

/-- A store call: (date, type, summary, metadata, timestamp). -/
def applyStore (db : List AnalysisRecord)
    (c : String × String × Option String × String × Nat) : List AnalysisRecord :=
  store_daily_analysis db c.1 c.2.1 c.2.2.1 c.2.2.2.1 c.2.2.2.2

/-!
## The two daily update cycles (api/main.py 71-122, daily_updater.py 15-49)

`fetchA` is the behavior of `assistant.fetch_analysis` for each analysis
type in this run; storing is modelled by recording what reaches
`store_daily_analysis` (whose own errors are swallowed and only logged).
-/

def analyses_to_update : List String := ["recent_trends", "clinical", "research"]

/-- The per-type loop of `update_daily_analyses` in api/main.py: the
`try/except` is inside the loop, so each iteration runs regardless of
earlier failures; a result is stored only if truthy. -/
def update_daily_loop (fetchA : String → Except PyExn (Option String)) :
    List String → List (String × String)
  | [] => []
  | t :: ts =>
    match fetchA t with
    | .ok analysis =>
      if optTruthy analysis then (t, analysis.getD "") :: update_daily_loop fetchA ts
      else update_daily_loop fetchA ts
    | .error _ => update_daily_loop fetchA ts

/-- `update_daily_analyses` (api/main.py 71-122): returns the
(analysis_type, summary) pairs handed to `store_daily_analysis`. -/
def update_daily_analyses (fetchA : String → Except PyExn (Option String)) :
    List (String × String) :=
  update_daily_loop fetchA analyses_to_update

/-- `DailyAnalysisUpdater.update_all_analyses` (daily_updater.py 15-49):
one `try` wraps all three types, so an exception aborts the rest of the
cycle; note it stores under the name "trends" and stores even a `None`
result (there is no truthiness check). -/
def update_all_analyses (fetchA : String → Except PyExn (Option String)) :
    List (String × Option String) :=
  match fetchA "recent_trends" with
  | .error _ => []
  | .ok trends =>
    match fetchA "clinical" with
    | .error _ => [("trends", trends)]
    | .ok clinical =>
      match fetchA "research" with
      | .error _ => [("trends", trends), ("clinical", clinical)]
      | .ok research => [("trends", trends), ("clinical", clinical), ("research", research)]

/-!
## GET /analyses/\x7bdate\x7d (api/main.py 250-280)
-/

structure DailySummaries where
  date : String
  recent_trends : Option String
  clinical : Option String
  research : Option String
  deriving Repr, DecidableEq

/-- The outcome of the route as the HTTP client sees it. -/
inductive ApiOutcome where
  | ok : DailySummaries → ApiOutcome
  | httpError : Nat → String → ApiOutcome
  deriving Repr, DecidableEq

/-- The population loop of `get_analyses_by_date` (lines 263-270). -/
def fill_summaries : List AnalysisRecord → DailySummaries → DailySummaries
  | [], acc => acc
  | r :: rs, acc =>
    let acc :=
      if r.rtype == "recent_trends" then { acc with recent_trends := r.summary }
      else if r.rtype == "clinical" then { acc with clinical := r.summary }
      else if r.rtype == "research" then { acc with research := r.summary }
      else acc
    fill_summaries rs acc

/-- starlette's `str(HTTPException)`: "status_code: detail". -/
def str_of_exn : PyExn → String
  | .httpException status detail => toString status ++ ": " ++ detail
  | _ => ""

/-- The `try` body of `get_analyses_by_date`: raises HTTPException 404 when
no record matches the date. -/
def get_analyses_by_date_body (db : List AnalysisRecord) (date : String) :
    Except PyExn DailySummaries :=
  let analyses := db.filter fun r => r.date == date
  let result := fill_summaries analyses ⟨date, none, none, none⟩
  if analyses.isEmpty then
    .error (.httpException 404 ("No analyses found for date: " ++ date))
  else .ok result

/-- `get_analyses_by_date` (lines 250-280): the route's
`except Exception as e: raise HTTPException(500, str(e))` catches every
exception — including the HTTPException(404) the body just raised,
because fastapi's HTTPException subclasses Exception. -/
def get_analyses_by_date (db : List AnalysisRecord) (date : String) : ApiOutcome :=
  match get_analyses_by_date_body db date with
  | .ok r => .ok r
  | .error e => .httpError 500 (str_of_exn e)

/-!
# Helper lemmas
-/

lemma optTruthy_iff (r : Option String) :
    optTruthy r = true ↔ ∃ s, r = some s ∧ s ≠ "" := by
  cases r with
  | none => simp [optTruthy]
  | some s => simp [optTruthy]

lemma listContainsSub_eq_infix (n l : List Char) :
    listContainsSub n l = true ↔ n <:+: l := by
  induction l with
  | nil =>
    simp [listContainsSub, List.isPrefixOf_iff_prefix]
  | cons c cs ih =>
    simp [listContainsSub, List.isPrefixOf_iff_prefix, ih, List.infix_cons_iff]

lemma strContainsSub_iff (h n : String) :
    strContainsSub h n = true ↔ ∃ pre post, h = pre ++ n ++ post := by
  rw [strContainsSub, listContainsSub_eq_infix]
  constructor
  · rintro ⟨s, t, hst⟩
    refine ⟨⟨s⟩, ⟨t⟩, ?_⟩
    apply String.ext
    simpa using hst.symm
  · rintro ⟨pre, post, rfl⟩
    exact ⟨pre.data, post.data, by simp⟩

/-- All failures of the model `strptime` are ValueError or TypeError —
exactly the exceptions `format_date`'s `except` clause catches. -/
lemma strptime_error_cases (v : PyVal) (fmt : String) (e : PyExn)
    (h : strptime v fmt = .error e) : e = .valueError ∨ e = .typeError := by
  cases v with
  | pyNone =>
    simp [strptime] at h
    exact Or.inr h.symm
  | pyStr s =>
    rw [strptime] at h
    cases hs : strptimeStr s fmt with
    | some d => rw [hs] at h; cases h
    | none => rw [hs] at h; exact Or.inl (Except.error.inj h).symm

/-!
# Claim theorems
-/

/-- C7: for every non-negative amount, `format_currency` renders "$" followed
by amount/1e6 to one decimal with suffix "M" when amount ≥ 1,000,000, by
amount/1e3 to one decimal with suffix "K" when 1,000 ≤ amount < 1,000,000,
and by the amount to two decimals otherwise (the rule stated by the claim,
`format_currency_claim`); the NIH copy agrees, and 500 ↦ "$500.00",
1500 ↦ "$1.5K", 2,300,000 ↦ "$2.3M". -/
theorem C7_format_currency (amount : ℚ) (h : 0 ≤ amount) :
    format_currency amount = format_currency_claim amount ∧
    nih_format_currency amount = format_currency amount ∧
    format_currency 500 = "$500.00" ∧
    format_currency 1500 = "$1.5K" ∧
    format_currency 2300000 = "$2.3M" := by
  refine ⟨?_, rfl, by decide, by decide, by decide⟩
  unfold format_currency format_currency_claim
  by_cases h1 : amount ≥ 1000000
  · simp [h1]
  · by_cases h2 : amount ≥ 1000
    · have h3 : 1000 ≤ amount ∧ amount < 1000000 := ⟨h2, lt_of_not_ge h1⟩
      simp [h1, h2, h3]
    · have h3 : ¬(1000 ≤ amount ∧ amount < 1000000) := fun hc => h2 hc.1
      simp [h1, h2, h3]

theorem C7_format_currency_witness :
    (0 : ℚ) ≤ 1500 ∧ format_currency 1500 = "$1.5K" :=
  ⟨by norm_num, (C7_format_currency 1500 (by norm_num)).2.2.2.1⟩

/-- C10: `format_date` never raises: for every input value and every
input/output format pair it returns normally — the rendered date when the
input parses under the input format, and the original input unchanged
(including a non-string `None` input) when parsing fails. -/
theorem C10_format_date_total (date_str : PyVal) (input_format output_format : String) :
    ∃ v, format_date date_str input_format output_format = .ok v ∧
      ((∃ d, strptime date_str input_format = .ok d ∧
          v = .pyStr (strftime d output_format)) ∨
       ((strptime date_str input_format).isOk = false ∧ v = date_str)) := by
  cases hp : strptime date_str input_format with
  | ok d =>
    refine ⟨.pyStr (strftime d output_format), ?_, Or.inl ⟨d, rfl, rfl⟩⟩
    simp [format_date, format_date_body, hp]
  | error e =>
    refine ⟨date_str, ?_, Or.inr ⟨rfl, rfl⟩⟩
    rcases strptime_error_cases _ _ _ hp with he | he <;>
      subst he <;> simp [format_date, format_date_body, hp]

/-- C9: the MedRxiv filter retains a paper iff some phrase of the fixed
rare-disease keyword list occurs case-insensitively as a substring of the
title-and-abstract text; `parse_medrxiv_papers`'s loop keeps exactly the
retained papers; a paper whose abstract contains "rare genetic mutation"
is retained, an upper-case "ULTRA-RARE" title is retained, and a paper
with no matching phrase is excluded. -/
theorem C9_rare_disease_filter :
    (∀ paper : MedrxivPaper,
        is_rare_disease_paper paper = true ↔
          ∃ kw ∈ rare_disease_keywords, ∃ pre post,
            pyLower (medrxiv_search_text paper) = pre ++ pyLower kw ++ post) ∧
    (∀ papers : List MedrxivPaper,
        parse_medrxiv_loop papers =
          (papers.filter is_rare_disease_paper).map extract_medrxiv_paper) ∧
    is_rare_disease_paper
      ⟨some "A case study", none, none, none, none,
       some "We report a rare genetic mutation in one patient.", none, none⟩ = true ∧
    is_rare_disease_paper
      ⟨some "ULTRA-RARE Disorder In Children", none, none, none, none,
       some "A cohort description.", none, none⟩ = true ∧
    is_rare_disease_paper
      ⟨some "Common Influenza", none, none, none, none,
       some "Seasonal flu surveillance.", none, none⟩ = false := by
  refine ⟨?_, ?_, by decide, by decide, by decide⟩
  · intro paper
    simp only [is_rare_disease_paper, List.any_eq_true]
    constructor
    · rintro ⟨kw, hkw, hc⟩
      exact ⟨kw, hkw, (strContainsSub_iff _ _).mp hc⟩
    · rintro ⟨kw, hkw, hocc⟩
      exact ⟨kw, hkw, (strContainsSub_iff _ _).mpr hocc⟩
  · intro papers
    induction papers with
    | nil => rfl
    | cons p ps ih =>
      by_cases hp : is_rare_disease_paper p = true <;>
        simp [parse_medrxiv_loop, List.filter_cons, hp, ih]

/-- A 250-character abstract for exercising the truncation claim. -/
def abstract250 : String := String.mk (List.replicate 250 'a')

/-- A PubMed article whose abstract exceeds 200 characters. -/
def c8_article : PubmedArticle :=
  { pmid := some "1", title := some "A Title", journal := none,
    publication_date := none, abstract := some (some abstract250),
    keywords := none, authors := none, doi := none }

set_option maxRecDepth 4000 in
/-- C8 counterexample: the claim says every formatted abstract longer than
200 characters is shown as its first 200 characters plus an ellipsis, but
`PubMedFetcher.format_disease_summary` renders a 250-character abstract
unmodified — the full abstract occurs in the output and neither the
truncated form nor any ellipsis does. -/
theorem C8_counterexample :
    abstract250.length = 250 ∧
    strContainsSub (format_disease_summary [c8_article]) abstract250 = true ∧
    strContainsSub (format_disease_summary [c8_article])
      (pyTake abstract250 200 ++ "...") = false ∧
    strContainsSub (format_disease_summary [c8_article]) "..." = false := by
  refine ⟨by decide, by decide, by decide, by decide⟩

/-- C8 amended: truncation to 200 characters plus "..." applies only to NIH
grant abstracts, which are then wrapped at width 65 with two-space indents;
MedRxiv paper abstracts are word-wrapped at width 80 without truncation;
PubMed literature abstracts are emitted unmodified — neither wrapped nor
truncated. -/
theorem C8_abstract_formatting (s : String) (h : s ≠ "") :
    nih_abstract_block s =
      ["\nAbstract Preview:", wrap_fill 65 "  " "  " (nih_abstract_preview s)] ∧
    (s.length ≤ 200 → nih_abstract_preview s = s) ∧
    (s.length > 200 → nih_abstract_preview s = pyTake s 200 ++ "...") ∧
    medrxiv_abstract_lines (some s) = "\nAbstract:" :: medrxiv_wrap80 s ∧
    pubmed_abstract_lines (some (some s)) = ["\nAbstract:", s] := by
  refine ⟨by simp [nih_abstract_block, h], ?_, ?_, ?_, by simp [pubmed_abstract_lines, h]⟩
  · intro hle
    simp [nih_abstract_preview, Nat.not_lt.mpr hle]
  · intro hgt
    simp [nih_abstract_preview, hgt]
  · simp [medrxiv_abstract_lines, optTruthy, h]

theorem C8_abstract_formatting_witness :
    ("xyz" : String) ≠ "" ∧ pubmed_abstract_lines (some (some "xyz")) = ["\nAbstract:", "xyz"] :=
  ⟨by decide, (C8_abstract_formatting "xyz" (by decide)).2.2.2.2⟩

/-- C2 counterexample: the claim says a missing expected key in the raw
payload is swallowed inside the adapter, but when the PubMed search payload
lacks the `esearchresult` key, `fetch_and_summarize` raises a KeyError past
the adapter boundary (only `requests.RequestException` is caught). -/
theorem C2_counterexample :
    pubmed_fetch_and_summarize (fun _ => .ok "") (.ok ⟨none⟩) (.ok "") =
      .error (.keyError "esearchresult") := rfl

/-- C2 amended: the ClinicalTrials adapter's `fetch_and_summarize_trials`
never raises for any transport outcome or payload shape in the upstream
schema — transport errors and falsy payloads yield the fixed sentinel
string, anything else a formatted digest — but the PubMed adapter raises
a KeyError past `fetch_and_summarize` whenever the search payload lacks
the expected `esearchresult` key, and fetch failures surface as a
non-empty sentinel string rather than as `None` or an empty result. -/
theorem C2_adapter_boundary (response_data : Option CTResp)
    (parseAndFormat : String → Except PyExn String)
    (efetchResp : Except Unit String) (sd : PMSearchData)
    (h : sd.esearchresult = none) :
    (∃ s, fetch_and_summarize_trials response_data = .ok s) ∧
    fetch_and_summarize_trials none = .ok "No results found or error occurred" ∧
    pubmed_fetch_and_summarize parseAndFormat (.ok sd) efetchResp =
      .error (.keyError "esearchresult") := by
  refine ⟨?_, rfl, ?_⟩
  · match response_data with
    | none => exact ⟨_, rfl⟩
    | some r =>
      by_cases ht : r.truthy
      · match hs : r.studies with
        | none =>
          exact ⟨format_trial_summary [],
            by simp [fetch_and_summarize_trials, parse_clinical_trials, ht, hs]⟩
        | some studies =>
          exact ⟨format_trial_summary (studies.map parse_ct_study),
            by simp [fetch_and_summarize_trials, parse_clinical_trials, ht, hs, pySubscript]⟩
      · exact ⟨"No results found or error occurred",
          by simp [fetch_and_summarize_trials, ht]⟩
  · simp [pubmed_fetch_and_summarize, fetch_pubmed_data, pySubscript, h]

theorem C2_adapter_boundary_witness :
    ({ esearchresult := none } : PMSearchData).esearchresult = none ∧
    pubmed_fetch_and_summarize (fun _ => .ok "digest") (.ok ⟨none⟩) (.ok "text") =
      .error (.keyError "esearchresult") :=
  ⟨rfl, (C2_adapter_boundary (some ⟨true, some []⟩) (fun _ => .ok "digest")
      (.ok "text") ⟨none⟩ rfl).2.2⟩

lemma collect_results_eq_nil (tools : List (String × Except PyExn (Option String))) :
    collect_results tools = [] ↔ ∀ p ∈ tools, ¬ produced_digest p.2 := by
  induction tools with
  | nil => simp [collect_results]
  | cons t rest ih =>
    obtain ⟨n, outcome⟩ := t
    cases outcome with
    | error e =>
      simp only [collect_results, ih, List.mem_cons]
      constructor
      · rintro hrest p (rfl | hp)
        · rintro ⟨s, hs, -⟩; cases hs
        · exact hrest p hp
      · intro hall p hp
        exact hall p (Or.inr hp)
    | ok r =>
      by_cases htr : optTruthy r = true
      · obtain ⟨s, rfl, hs⟩ := (optTruthy_iff r).mp htr
        simp only [collect_results, htr, if_pos rfl]
        constructor
        · intro hcontra; cases hcontra
        · intro hall
          exact absurd ⟨s, rfl, hs⟩ (hall (n, .ok (some s)) (List.mem_cons_self _ _))
      · have htr' : optTruthy r = false := eq_false_of_ne_true htr
        simp only [collect_results, htr', Bool.false_eq_true, if_false, ih, List.mem_cons]
        constructor
        · rintro hrest p (rfl | hp)
          · rintro ⟨s, hs, hne⟩
            injection hs with hs
            subst hs
            exact htr ((optTruthy_iff _).mpr ⟨s, rfl, hne⟩)
          · exact hrest p hp
        · intro hall p hp
          exact hall p (Or.inr hp)

/-- C1: with any mix of adapter outcomes (raised, `None`/empty, digest) the
orchestration entry points return normally — no adapter failure escapes —
and (given the synthesizer never happens to emit the literal sentinel text)
`answer_specific_query` returns the insufficient-data sentinel string, and
`fetch_analysis` returns `None`, exactly when no adapter produced a
non-empty digest. -/
theorem C1_entry_points (summarize : String → String → String)
    (tools : List (String × Except PyExn (Option String)))
    (query analysis_type : String)
    (hsyn : ∀ raw q, summarize raw q ≠ insufficient_sentinel) :
    (∃ answer, answer_specific_query summarize tools query = .ok answer) ∧
    (answer_specific_query summarize tools query = .ok insufficient_sentinel ↔
      ∀ p ∈ tools, ¬ produced_digest p.2) ∧
    ((fetch_analysis summarize tools analysis_type).1 = none ↔
      ∀ p ∈ tools, ¬ produced_digest p.2) := by
  by_cases hc : collect_results tools = []
  · rw [answer_specific_query, fetch_analysis]
    simp only [hc, List.isEmpty_nil, if_pos rfl]
    exact ⟨⟨insufficient_sentinel, rfl⟩,
      ⟨fun _ => (collect_results_eq_nil tools).mp hc,
       fun _ => rfl⟩,
      ⟨fun _ => (collect_results_eq_nil tools).mp hc, fun _ => rfl⟩⟩
  · rw [answer_specific_query, fetch_analysis]
    have hne : (collect_results tools).isEmpty = false := by
      cases hcc : collect_results tools with
      | nil => exact absurd hcc hc
      | cons a l => rfl
    simp only [hne, Bool.false_eq_true, if_neg, ite_false]
    refine ⟨⟨_, rfl⟩, ?_, ?_⟩
    · constructor
      · intro habs
        injection habs with habs
        exact absurd habs (hsyn _ _)
      · intro hall
        exact absurd ((collect_results_eq_nil tools).mpr hall) hc
    · constructor
      · intro habs; cases habs
      · intro hall
        exact absurd ((collect_results_eq_nil tools).mpr hall) hc

theorem C1_entry_points_witness :
    ("SYNTHESIS" : String) ≠ insufficient_sentinel ∧
    answer_specific_query (fun _ _ => "SYNTHESIS")
      [("pubmed", .error .requestException), ("clinical_trials", .ok none),
       ("research_papers", .ok (some ""))] "q" = .ok insufficient_sentinel := by
  have hsyn : ∀ raw q : String, "SYNTHESIS" ≠ insufficient_sentinel :=
    fun _ _ => by decide
  refine ⟨hsyn "" "", ?_⟩
  refine (C1_entry_points (fun _ _ => "SYNTHESIS")
    [("pubmed", .error .requestException), ("clinical_trials", .ok none),
     ("research_papers", .ok (some ""))] "q" "clinical" hsyn).2.1.mpr ?_
  intro p hp
  fin_cases hp <;> rintro ⟨s, hs, hne⟩ <;> simp_all

/-- The fan-out over the registered tools keeps, in registration order,
exactly the adapters whose outcome is a non-empty digest. -/
lemma collect_results_map (f : String → Except PyExn (Option String))
    (names : List String) :
    collect_results (names.map fun n => (n, f n)) =
      names.filterMap (fun n =>
        match f n with
        | .ok (some s) => if s ≠ "" then some (n, s) else none
        | _ => none) := by
  induction names with
  | nil => rfl
  | cons n ns ih =>
    simp only [List.map_cons, List.filterMap_cons]
    cases hf : f n with
    | error e => simpa [collect_results, hf] using ih
    | ok r =>
      cases r with
      | none => simpa [collect_results, optTruthy, hf] using ih
      | some s =>
        by_cases hse : s = ""
        · subst hse
          simpa [collect_results, optTruthy, hf] using ih
        · have : optTruthy (some s) = true := (optTruthy_iff _).mpr ⟨s, rfl, hse⟩
          simp only [collect_results, this, if_true, hf, hse, ite_not]
          simpa [hse] using ih

/-- C5: when at least one of the five registered adapters yields a
non-empty digest, the aggregate document handed to `summarize_response`
consists of exactly the successful digests — each under a
`=== SOURCE ===` header naming its adapter — concatenated with blank
lines in registration order (pubmed, clinical_trials, research_papers,
cdc_data, nih), and `summarize_response` is invoked exactly once, with
that document and the query for the analysis type. -/
theorem C5_aggregate_document (summarize : String → String → String)
    (f : String → Except PyExn (Option String)) (analysis_type : String)
    (h : collect_results (tool_names.map fun n => (n, f n)) ≠ []) :
    ∃ sections : List (String × String),
      sections = tool_names.filterMap (fun n =>
        match f n with
        | .ok (some s) => if s ≠ "" then some (n, s) else none
        | _ => none) ∧
      sections ≠ [] ∧
      fetch_analysis summarize (tool_names.map fun n => (n, f n)) analysis_type =
        (some (summarize
            (String.intercalate "\n\n"
              (sections.flatMap fun sc => ["=== " ++ pyUpper sc.1 ++ " ===", sc.2]))
            (analysis_query analysis_type)),
         [(String.intercalate "\n\n"
              (sections.flatMap fun sc => ["=== " ++ pyUpper sc.1 ++ " ===", sc.2]),
           analysis_query analysis_type)]) := by
  refine ⟨collect_results (tool_names.map fun n => (n, f n)),
    collect_results_map f tool_names, h, ?_⟩
  rw [fetch_analysis]
  have hne : (collect_results (tool_names.map fun n => (n, f n))).isEmpty = false := by
    cases hcc : collect_results (tool_names.map fun n => (n, f n)) with
    | nil => exact absurd hcc h
    | cons a l => rfl
  simp only [hne, Bool.false_eq_true, if_false, ite_false, format_overview]

theorem C5_aggregate_document_witness :
    collect_results (tool_names.map fun n =>
      (n, (fun m => if m = "pubmed" then Except.ok (some "P") else
            if m = "nih" then Except.ok (some "N") else
              Except.ok (none : Option String)) n)) ≠ [] ∧
    (fetch_analysis (fun doc q => "S:" ++ doc ++ "|" ++ q)
      (tool_names.map fun n =>
        (n, (fun m => if m = "pubmed" then Except.ok (some "P") else
              if m = "nih" then Except.ok (some "N") else
                Except.ok (none : Option String)) n)) "clinical").2.length = 1 := by
  have h : collect_results (tool_names.map fun n =>
      (n, (fun m => if m = "pubmed" then Except.ok (some "P") else
            if m = "nih" then Except.ok (some "N") else
              Except.ok (none : Option String)) n)) ≠ [] := by decide
  refine ⟨h, ?_⟩
  obtain ⟨sections, hsec, hnil, heq⟩ :=
    C5_aggregate_document (fun doc q => "S:" ++ doc ++ "|" ++ q)
      (fun m => if m = "pubmed" then Except.ok (some "P") else
        if m = "nih" then Except.ok (some "N") else
          Except.ok (none : Option String)) "clinical" h
  rw [heq]
  rfl

lemma keyMatch_mk (d t : String) (s : Option String) (m : String) (ts : Nat) :
    keyMatch d t ⟨d, t, s, m, ts⟩ = true := by
  simp [keyMatch]

lemma keyMatch_disjoint (d t d' t' : String) (hne : ¬(d' = d ∧ t' = t))
    (r : AnalysisRecord) (h : keyMatch d t r = true) : keyMatch d' t' r = false := by
  simp only [keyMatch, Bool.and_eq_true, beq_iff_eq] at h
  rw [Bool.eq_false_iff]
  intro hk
  simp only [keyMatch, Bool.and_eq_true, beq_iff_eq] at hk
  exact hne ⟨hk.1.symm.trans h.1, hk.2.symm.trans h.2⟩

lemma replaceFirst_filter_same (p : AnalysisRecord → Bool) (doc : AnalysisRecord)
    (hdoc : p doc = true) :
    ∀ db : List AnalysisRecord, db.any p = true → (db.filter p).length = 1 →
      (replaceFirst p doc db).filter p = [doc] := by
  intro db
  induction db with
  | nil => intro hany; cases hany
  | cons r rs ih =>
    intro hany hlen
    by_cases hr : p r = true
    · rw [replaceFirst, if_pos hr]
      rw [List.filter_cons_of_pos hr] at hlen
      have h0 : (rs.filter p).length = 0 := by
        simpa using hlen
      rw [List.filter_cons_of_pos hdoc, List.length_eq_zero.mp h0]
    · rw [replaceFirst, if_neg hr]
      rw [List.filter_cons_of_neg (by simpa using hr)] at hlen ⊢
      have hany' : rs.any p = true := by
        rcases List.any_eq_true.mp hany with ⟨x, hx, hpx⟩
        rcases List.mem_cons.mp hx with rfl | hx'
        · exact absurd hpx hr
        · exact List.any_eq_true.mpr ⟨x, hx', hpx⟩
      exact ih hany' hlen

lemma replaceFirst_filter_other (p q : AnalysisRecord → Bool) (doc : AnalysisRecord)
    (hdoc : q doc = false) (hpq : ∀ r, p r = true → q r = false) :
    ∀ db : List AnalysisRecord, (replaceFirst p doc db).filter q = db.filter q := by
  intro db
  induction db with
  | nil => rfl
  | cons r rs ih =>
    by_cases hr : p r = true
    · rw [replaceFirst, if_pos hr]
      rw [List.filter_cons_of_neg (by simp [hdoc]),
        List.filter_cons_of_neg (by simp [hpq r hr])]
    · rw [replaceFirst, if_neg hr]
      by_cases hq : q r = true
      · rw [List.filter_cons_of_pos hq, List.filter_cons_of_pos hq, ih]
      · rw [List.filter_cons_of_neg (by simpa using hq),
          List.filter_cons_of_neg (by simpa using hq), ih]

lemma store_count_key (db : List AnalysisRecord) (d t : String)
    (s : Option String) (m : String) (ts : Nat) (hle : countKey db d t ≤ 1) :
    (store_daily_analysis db d t s m ts).filter (keyMatch d t) = [⟨d, t, s, m, ts⟩] ∧
    countKey (store_daily_analysis db d t s m ts) d t = 1 := by
  rw [store_daily_analysis, update_one_upsert]
  by_cases hany : db.any (keyMatch d t) = true
  · rw [if_pos hany]
    have hpos : 0 < (db.filter (keyMatch d t)).length := by
      rcases List.any_eq_true.mp hany with ⟨x, hx, hpx⟩
      exact List.length_pos.mpr fun hnil =>
        (List.filter_eq_nil_iff.mp hnil x hx) hpx
    have hlen : (db.filter (keyMatch d t)).length = 1 :=
      Nat.le_antisymm hle hpos
    have := replaceFirst_filter_same (keyMatch d t) _ (keyMatch_mk d t s m ts) db hany hlen
    exact ⟨this, by rw [countKey, this]; rfl⟩
  · rw [if_neg hany]
    have hnil : db.filter (keyMatch d t) = [] := by
      rw [List.filter_eq_nil_iff]
      intro x hx hpx
      exact hany (List.any_eq_true.mpr ⟨x, hx, hpx⟩)
    rw [List.filter_append, hnil]
    rw [List.filter_cons_of_pos (keyMatch_mk d t s m ts)]
    exact ⟨rfl, by rw [countKey, List.filter_append, hnil,
      List.filter_cons_of_pos (keyMatch_mk d t s m ts)]; rfl⟩

lemma store_count_other (db : List AnalysisRecord) (d t : String)
    (s : Option String) (m : String) (ts : Nat) (d' t' : String)
    (hne : ¬(d' = d ∧ t' = t)) :
    countKey (store_daily_analysis db d t s m ts) d' t' = countKey db d' t' := by
  have hdoc : keyMatch d' t' ⟨d, t, s, m, ts⟩ = false := by
    rw [Bool.eq_false_iff]
    intro hk
    simp only [keyMatch, Bool.and_eq_true, beq_iff_eq] at hk
    exact hne ⟨hk.1.symm, hk.2.symm⟩
  rw [store_daily_analysis, update_one_upsert]
  by_cases hany : db.any (keyMatch d t) = true
  · rw [if_pos hany, countKey,
      replaceFirst_filter_other (keyMatch d t) (keyMatch d' t') _ hdoc
        (keyMatch_disjoint d t d' t' hne)]
    rfl
  · rw [if_neg hany, countKey, List.filter_append,
      List.filter_cons_of_neg (by simpa using hdoc)]
    simp [countKey]

lemma store_preserves_inv (db : List AnalysisRecord) (d t : String)
    (s : Option String) (m : String) (ts : Nat)
    (hinv : ∀ d' t', countKey db d' t' ≤ 1) :
    ∀ d' t', countKey (store_daily_analysis db d t s m ts) d' t' ≤ 1 := by
  intro d' t'
  by_cases hk : d' = d ∧ t' = t
  · rcases hk with ⟨rfl, rfl⟩
    exact (store_count_key db d' t' s m ts (hinv d' t')).2.le
  · rw [store_count_other db d t s m ts d' t' hk]
    exact hinv d' t'

lemma foldl_store_preserves_inv :
    ∀ (calls : List (String × String × Option String × String × Nat))
      (db : List AnalysisRecord),
      (∀ d' t', countKey db d' t' ≤ 1) →
      ∀ d' t', countKey (calls.foldl applyStore db) d' t' ≤ 1 := by
  intro calls
  induction calls with
  | nil => intro db hinv; exact hinv
  | cons c cs ih =>
    intro db hinv
    rw [List.foldl_cons]
    exact ih _ (store_preserves_inv db c.1 c.2.1 c.2.2.1 c.2.2.2.1 c.2.2.2.2 hinv)

/-- C4: starting from any store with at most one record per (date, type)
key, two `store_daily_analysis` calls for the same key leave exactly one
record for that key, carrying the second call's summary, metadata and
timestamp; every single store preserves the at-most-one invariant, and no
sequence of store calls can ever create a duplicate (date, type) pair. -/
theorem C4_upsert_idempotence (db : List AnalysisRecord) (d t : String)
    (s1 s2 : Option String) (m1 m2 : String) (ts1 ts2 : Nat)
    (hinv : ∀ d' t', countKey db d' t' ≤ 1) :
    countKey (store_daily_analysis
      (store_daily_analysis db d t s1 m1 ts1) d t s2 m2 ts2) d t = 1 ∧
    (store_daily_analysis
      (store_daily_analysis db d t s1 m1 ts1) d t s2 m2 ts2).filter (keyMatch d t) =
      [⟨d, t, s2, m2, ts2⟩] ∧
    (∀ d' t', countKey (store_daily_analysis
      (store_daily_analysis db d t s1 m1 ts1) d t s2 m2 ts2) d' t' ≤ 1) ∧
    (∀ calls : List (String × String × Option String × String × Nat), ∀ d' t',
      countKey (calls.foldl applyStore db) d' t' ≤ 1) := by
  have hinv1 := store_preserves_inv db d t s1 m1 ts1 hinv
  have hkey := store_count_key (store_daily_analysis db d t s1 m1 ts1) d t s2 m2 ts2
    (hinv1 d t)
  exact ⟨hkey.2, hkey.1, store_preserves_inv _ d t s2 m2 ts2 hinv1,
    fun calls => foldl_store_preserves_inv calls db hinv⟩

theorem C4_upsert_idempotence_witness :
    (∀ d' t', countKey [] d' t' ≤ 1) ∧
    countKey (store_daily_analysis
      (store_daily_analysis [] "2024-01-01" "clinical" (some "v1") "m1" 0)
      "2024-01-01" "clinical" (some "v2") "m2" 1) "2024-01-01" "clinical" = 1 := by
  have hinv : ∀ d' t', countKey [] d' t' ≤ 1 := by
    intro d' t'; simp [countKey]
  exact ⟨hinv, (C4_upsert_idempotence [] "2024-01-01" "clinical"
    (some "v1") (some "v2") "m1" "m2" 0 1 hinv).1⟩

/-- A run in which producing the first analysis type raises and the other
two types would produce digests. -/
def c6_fetch : String → Except PyExn (Option String) :=
  fun t => if t = "recent_trends" then .error .valueError else .ok (some "digest")

/-- C6 counterexample: the claim says a failure on the first type never
prevents the second and third from being run and stored, but
`DailyAnalysisUpdater.update_all_analyses` wraps all three types in a
single `try`, so when fetching the first type raises, nothing at all is
stored — even though the clinical and research fetches would have
succeeded (as `update_daily_analyses` in api/main.py shows on the same
run). -/
theorem C6_counterexample :
    update_all_analyses c6_fetch = [] ∧
    c6_fetch "clinical" = .ok (some "digest") ∧
    c6_fetch "research" = .ok (some "digest") ∧
    update_daily_analyses c6_fetch = [("clinical", "digest"), ("research", "digest")] := by
  exact ⟨rfl, rfl, rfl, rfl⟩

/-- C6 amended: in api/main.py's `update_daily_analyses` each of the three
types is attempted independently — the stored pairs are exactly the types
whose fetch produced a truthy result, regardless of failures on the
others; in daily_updater.py's `update_all_analyses`, by contrast, an
exception while producing the first type aborts the whole cycle and
nothing is stored. -/
theorem C6_per_type_isolation (fetchA : String → Except PyExn (Option String)) :
    update_daily_analyses fetchA =
      analyses_to_update.filterMap (fun t =>
        match fetchA t with
        | .ok (some s) => if s ≠ "" then some (t, s) else none
        | _ => none) ∧
    ((fetchA "recent_trends").isOk = false → update_all_analyses fetchA = []) := by
  constructor
  · have hloop : ∀ types : List String,
        update_daily_loop fetchA types =
          types.filterMap (fun t =>
            match fetchA t with
            | .ok (some s) => if s ≠ "" then some (t, s) else none
            | _ => none) := by
      intro types
      induction types with
      | nil => rfl
      | cons t ts ih =>
        simp only [List.filterMap_cons]
        cases hf : fetchA t with
        | error e => simpa [update_daily_loop, hf] using ih
        | ok r =>
          cases r with
          | none => simpa [update_daily_loop, optTruthy, hf] using ih
          | some s =>
            by_cases hse : s = ""
            · subst hse
              simpa [update_daily_loop, optTruthy, hf] using ih
            · have htr : optTruthy (some s) = true := (optTruthy_iff _).mpr ⟨s, rfl, hse⟩
              simp only [update_daily_loop, hf, htr, if_true, hse, ite_not]
              simpa [hse] using ih
    exact hloop analyses_to_update
  · intro hfail
    rw [update_all_analyses]
    cases hf : fetchA "recent_trends" with
    | ok r => rw [hf] at hfail; cases hfail
    | error e => rfl

theorem C6_per_type_isolation_witness :
    (c6_fetch "recent_trends").isOk = false ∧ update_all_analyses c6_fetch = [] :=
  ⟨rfl, (C6_per_type_isolation c6_fetch).2 rfl⟩

/-- C3 (code-bug evidence): for a date with zero stored records the route
does construct `HTTPException(404, "No analyses found for date: …")`, but
its own `except Exception` clause catches that very exception and
re-raises it as a 500 whose detail is `str(e)` — the client sees 500, not
the 404 the claim (and the code's visible intent) specify.  For a date
with records for 2 of the 3 types, the response is as claimed: the missing
type's field is `None` and the present types carry their stored summaries. -/
theorem C3_date_lookup :
    get_analyses_by_date [] "2024-01-01" =
      .httpError 500 ("404: No analyses found for date: 2024-01-01") ∧
    get_analyses_by_date
      [⟨"2024-01-01", "clinical", some "C", "m", 0⟩,
       ⟨"2024-01-01", "research", some "R", "m", 1⟩] "2024-01-01" =
      .ok ⟨"2024-01-01", none, some "C", some "R"⟩ ∧
    (∀ db : List AnalysisRecord, ∀ date : String,
      (db.filter fun r => r.date == date).isEmpty = true →
        get_analyses_by_date db date =
          .httpError 500 ("404: No analyses found for date: " ++ date)) := by
  refine ⟨by decide, by decide, ?_⟩
  intro db date hempty
  rw [get_analyses_by_date, get_analyses_by_date_body]
  simp only [List.isEmpty_iff.mp hempty, if_pos rfl]
  rfl

theorem C3_date_lookup_witness :
    (([] : List AnalysisRecord).filter fun r => r.date == "2099-12-31").isEmpty = true ∧
    get_analyses_by_date [] "2099-12-31" =
      .httpError 500 ("404: No analyses found for date: 2099-12-31") :=
  ⟨rfl, (C3_date_lookup).2.2 [] "2099-12-31" rfl⟩
